import Mathlib

/-!
Shallow embedding of the GitHubSentinel LLM adapter (src/llm.py, with the
relevant slice of src/config.py) and proofs about its contract.

The adapter selects a backend (openai / azure / azure_openai / ollama) at
construction time and exposes `generate_report(system_prompt, user_content)`,
which builds a two-message sequence, issues one backend request, and extracts
the reply text.  Effects are modelled explicitly: each call yields the single
outgoing `Request` it issues together with the value it returns (or the error
it raises) given a mocked backend reply.
-/

namespace GitHubSentinel

/-- A chat message: a role tagged with text content (llm.py, `generate_report`). -/
structure Message where
  role : String
  content : String
deriving Repr, DecidableEq

/-- Python truthiness of an optional string: `None` and `""` are falsy.
Used for `not self.config.azure_base_url`, `if content:`, `if message_content:`. -/
def falsy : Option String → Bool
  | none => true
  | some s => s.isEmpty

/-- The LLM-relevant fields of the configuration object (config.py,
`Config.load_config`).  `azure_base_url`, `azure_deployment_name` and
`azure_api_key` may be absent (`None`); `azure_api_version` always holds a
string because config.py defaults it to `'2023-05-15'`. -/
structure Config where
  llm_model_type : String
  openai_model_name : String
  ollama_model_name : String
  ollama_api_url : String
  azure_base_url : Option String
  azure_deployment_name : Option String
  azure_api_key : Option String
  azure_api_version : String
deriving Repr, DecidableEq

/-- Python `s.rstrip('/')`: remove trailing slash characters. -/
def rstripSlash (s : String) : String :=
  String.mk ((s.data.reverse.dropWhile (fun c => c = '/')).reverse)

/-- Lowercase one character (ASCII; characters outside A-Z are unchanged, as in
Python `str.lower()` for the alphabets appearing here). -/
def charLower (c : Char) : Char :=
  if 'A' ≤ c ∧ c ≤ 'Z' then Char.ofNat (c.toNat + 32) else c

/-- Python `s.lower()`, mapped over the characters. -/
def strLower (s : String) : String :=
  String.mk (s.data.map charLower)

/-- The state of a constructed adapter (llm.py, `LLM.__init__`).  `model` is the
lowercased selector; fields a branch does not set default to `""` (the code
never reads them on that branch). -/
structure LLMState where
  config : Config
  model : String
  azure_base_url : String := ""
  azure_deployment_name : String := ""
  azure_api_key : String := ""
  azure_api_version : String := ""
  api_url : String := ""
deriving Repr, DecidableEq

/-- Errors raised by `LLM.__init__`. -/
inductive InitError where
  | azureIncomplete (msg : String)
  | unsupported (msg : String)
deriving Repr, DecidableEq

/-- The exact message of the azure configuration `ValueError` in llm.py. -/
def azureIncompleteMsg : String :=
  "Azure OpenAI configuration incomplete: azure_base_url, azure_deployment_name, azure_api_key required"

/-- llm.py, `LLM.__init__`: lowercase the configured model type, then select the
backend; for azure, validate that base url, deployment name and api key are all
truthy, storing the base url with trailing slashes stripped. -/
def LLM.init (config : Config) : Except InitError LLMState :=
  let model := strLower config.llm_model_type
  if model = "openai" then
    Except.ok { config := config, model := model }
  else if model = "azure" ∨ model = "azure_openai" then
    if falsy config.azure_base_url || falsy config.azure_deployment_name ||
        falsy config.azure_api_key then
      Except.error (InitError.azureIncomplete azureIncompleteMsg)
    else
      Except.ok
        { config := config, model := model,
          azure_base_url := rstripSlash (config.azure_base_url.getD ""),
          azure_deployment_name := config.azure_deployment_name.getD "",
          azure_api_key := config.azure_api_key.getD "",
          azure_api_version := config.azure_api_version }
  else if model = "ollama" then
    Except.ok { config := config, model := model, api_url := config.ollama_api_url }
  else
    Except.error (InitError.unsupported ("不支持的模型类型: " ++ model))

/-- The request `_generate_report_openai` issues through the OpenAI client. -/
structure OpenAIRequest where
  model : String
  messages : List Message
deriving Repr, DecidableEq

/-- The JSON body `_generate_report_azure` posts. -/
structure AzurePayload where
  messages : List Message
  max_tokens : Nat
  temperature : ℚ
  top_p : ℚ
deriving Repr, DecidableEq

/-- The HTTP POST `_generate_report_azure` issues: URL, headers, body, timeout. -/
structure AzureRequest where
  url : String
  content_type : String
  api_key : String
  payload : AzurePayload
  timeout : Nat
deriving Repr, DecidableEq

/-- The JSON body `_generate_report_ollama` posts. -/
structure OllamaPayload where
  model : String
  messages : List Message
  max_tokens : Nat
  temperature : ℚ
  stream : Bool
deriving Repr, DecidableEq

/-- The HTTP POST `_generate_report_ollama` issues. -/
structure OllamaRequest where
  url : String
  payload : OllamaPayload
deriving Repr, DecidableEq

/-- The single outgoing request of one `generate_report` call. -/
inductive Request where
  | openai (r : OpenAIRequest)
  | azure (r : AzureRequest)
  | ollama (r : OllamaRequest)
deriving Repr, DecidableEq

/-- The messages carried by an outgoing request, whatever the backend. -/
def Request.messages : Request → List Message
  | Request.openai r => r.messages
  | Request.azure r => r.payload.messages
  | Request.ollama r => r.payload.messages

/-- A message object inside a backend reply; `content` may be null or absent. -/
structure RespMessage where
  content : Option String
deriving Repr, DecidableEq

/-- A choice in an OpenAI client reply (the client guarantees `message` exists). -/
structure OpenAIChoice where
  message : RespMessage
deriving Repr, DecidableEq

/-- An OpenAI client reply envelope. -/
structure OpenAIResponse where
  choices : List OpenAIChoice
deriving Repr, DecidableEq

/-- A choice in the Azure JSON body; `message` may be absent or null. -/
structure AzureChoice where
  message : Option RespMessage
deriving Repr, DecidableEq

/-- The Azure JSON body; `choices` may be absent or null. -/
structure AzureBody where
  choices : Option (List AzureChoice)
deriving Repr, DecidableEq

/-- The Ollama JSON body; `message` may be absent. -/
structure OllamaBody where
  message : Option RespMessage
deriving Repr, DecidableEq

/-- A mocked backend reply, of the kind matching the backend that is called. -/
inductive BackendResponse where
  | openai (r : OpenAIResponse)
  | azure (status : Nat) (body : AzureBody)
  | ollama (body : OllamaBody)
deriving Repr, DecidableEq

/-- Errors raised during `generate_report`. -/
inductive GenError where
  | unsupportedModel (msg : String)
  | indexError
  | httpStatus (code : Nat)
  | missingChoices
  | cannotExtract
  | ollamaInvalid
  | responseKindMismatch
deriving Repr, DecidableEq

/-- llm.py, `_generate_report_openai`: the request sent through the client and
the value `response.choices[0].message.content` returned — note no emptiness
check on the content (`choices[0]` on an empty list is an IndexError). -/
def LLM.generate_report_openai (st : LLMState) (messages : List Message)
    (resp : OpenAIResponse) : Request × Except GenError (Option String) :=
  (Request.openai { model := st.config.openai_model_name, messages := messages },
   match resp.choices with
   | [] => Except.error GenError.indexError
   | c :: _ => Except.ok c.message.content)

/-- llm.py, `_generate_report_azure`: POST to
`{base_url}/openai/deployments/{deployment}/chat/completions?api-version={v}`
with the `api-key` header, body `messages`/`max_tokens=4000`/`temperature=0.7`/
`top_p=1`, timeout 60; `raise_for_status` (4xx/5xx raises), then
`data.get('choices') or []` must be non-empty and the first choice's
`message.content` truthy, else a `ValueError` is raised. -/
def LLM.generate_report_azure (st : LLMState) (messages : List Message)
    (status : Nat) (body : AzureBody) : Request × Except GenError (Option String) :=
  let url := st.azure_base_url ++ "/openai/deployments/" ++ st.azure_deployment_name ++
      "/chat/completions?api-version=" ++ st.azure_api_version
  let req := Request.azure
    { url := url, content_type := "application/json",
      api_key := st.azure_api_key,
      payload := { messages := messages, max_tokens := 4000, temperature := 7/10, top_p := 1 },
      timeout := 60 }
  let result : Except GenError (Option String) :=
    if 400 ≤ status ∧ status < 600 then Except.error (GenError.httpStatus status)
    else
      match body.choices.getD [] with
      | [] => Except.error GenError.missingChoices
      | c :: _ =>
        let message := c.message.getD { content := none }
        if falsy message.content then Except.error GenError.cannotExtract
        else Except.ok message.content
  (req, result)

/-- llm.py, `_generate_report_ollama`: POST to the configured endpoint, body
`model`/`messages`/`max_tokens=4000`/`temperature=0.7`/`stream=false`; no HTTP
status check; `response_data.get("message", {}).get("content", None)` must be
truthy, else a `ValueError` is raised. -/
def LLM.generate_report_ollama (st : LLMState) (messages : List Message)
    (body : OllamaBody) : Request × Except GenError (Option String) :=
  let req := Request.ollama
    { url := st.api_url,
      payload := { model := st.config.ollama_model_name, messages := messages,
                   max_tokens := 4000, temperature := 7/10, stream := false } }
  let result : Except GenError (Option String) :=
    let message_content := (body.message.getD { content := none }).content
    if falsy message_content then Except.error GenError.ollamaInvalid
    else Except.ok message_content
  (req, result)

/-- llm.py, `LLM.generate_report`: build the two-message sequence (system then
user) and dispatch on `self.model`.  The mocked backend reply is passed in; a
reply of a kind not matching the selected backend is a modelling artifact
reported as `responseKindMismatch` (in the program the reply always comes from
the one request the call just issued). -/
def LLM.generate_report (st : LLMState) (system_prompt user_content : String)
    (resp : BackendResponse) :
    Except GenError (Request × Except GenError (Option String)) :=
  let messages : List Message :=
    [ { role := "system", content := system_prompt },
      { role := "user", content := user_content } ]
  if st.model = "openai" then
    match resp with
    | BackendResponse.openai r => Except.ok (LLM.generate_report_openai st messages r)
    | _ => Except.error GenError.responseKindMismatch
  else if st.model = "azure" ∨ st.model = "azure_openai" then
    match resp with
    | BackendResponse.azure status body =>
        Except.ok (LLM.generate_report_azure st messages status body)
    | _ => Except.error GenError.responseKindMismatch
  else if st.model = "ollama" then
    match resp with
    | BackendResponse.ollama body => Except.ok (LLM.generate_report_ollama st messages body)
    | _ => Except.error GenError.responseKindMismatch
  else
    Except.error (GenError.unsupportedModel ("不支持的模型类型: " ++ st.model))

/-- Naive decidable substring test on character lists. -/
def containsSub : (hay sub : List Char) → Bool
  | [], sub => sub.isEmpty
  | h :: t, sub => sub.isPrefixOf (h :: t) || containsSub t sub

/-- A sample configuration with all azure settings present (used as a concrete
input by the witnesses below). -/
def sampleCfg : Config :=
  { llm_model_type := "azure", openai_model_name := "gpt-4o-mini",
    ollama_model_name := "llama3", ollama_api_url := "http://localhost:11434/api/chat",
    azure_base_url := some "https://e.com", azure_deployment_name := some "dep",
    azure_api_key := some "key", azure_api_version := "2023-05-15" }

/-- The adapter state `LLM.init sampleCfg` produces. -/
def sampleAzureState : LLMState :=
  { config := sampleCfg, model := "azure", azure_base_url := "https://e.com",
    azure_deployment_name := "dep", azure_api_key := "key",
    azure_api_version := "2023-05-15" }

/-- `sampleCfg` with the openai backend selected. -/
def sampleOpenaiCfg : Config := { sampleCfg with llm_model_type := "openai" }

/-- The adapter state `LLM.init sampleOpenaiCfg` produces. -/
def sampleOpenaiState : LLMState := { config := sampleOpenaiCfg, model := "openai" }

/-- `sampleCfg` with the ollama backend selected. -/
def sampleOllamaCfg : Config := { sampleCfg with llm_model_type := "ollama" }

/-- The adapter state `LLM.init sampleOllamaCfg` produces. -/
def sampleOllamaState : LLMState :=
  { config := sampleOllamaCfg, model := "ollama",
    api_url := "http://localhost:11434/api/chat" }

/-- Claim C1: with backend selector azure (or azure_openai), construction fails
with the configuration error exactly when one of base url, deployment name and
api key is empty or absent — and the error message names each (missing) field —
and succeeds, storing the azure settings, when all three are non-empty. -/
theorem azure_construction_validates (cfg : Config)
    (hsel : strLower cfg.llm_model_type = "azure" ∨
      strLower cfg.llm_model_type = "azure_openai") :
    ((falsy cfg.azure_base_url || falsy cfg.azure_deployment_name ||
        falsy cfg.azure_api_key) = true →
      LLM.init cfg = Except.error (InitError.azureIncomplete azureIncompleteMsg) ∧
      containsSub azureIncompleteMsg.data "azure_base_url".data = true ∧
      containsSub azureIncompleteMsg.data "azure_deployment_name".data = true ∧
      containsSub azureIncompleteMsg.data "azure_api_key".data = true) ∧
    ((falsy cfg.azure_base_url || falsy cfg.azure_deployment_name ||
        falsy cfg.azure_api_key) = false →
      LLM.init cfg =
        Except.ok
          { config := cfg, model := strLower cfg.llm_model_type,
            azure_base_url := rstripSlash (cfg.azure_base_url.getD ""),
            azure_deployment_name := cfg.azure_deployment_name.getD "",
            azure_api_key := cfg.azure_api_key.getD "",
            azure_api_version := cfg.azure_api_version }) := by
  constructor <;> intro hf <;>
    rcases hsel with h | h <;>
    simp only [LLM.init, h] <;>
    cases hb : falsy cfg.azure_base_url <;>
    cases hd : falsy cfg.azure_deployment_name <;>
    cases hk : falsy cfg.azure_api_key <;>
    simp_all <;> decide

/-- Concrete input for the C1 witness: azure selected, base url absent. -/
def cfgAzureMissing : Config := { sampleCfg with azure_base_url := none }

/-- Witness for C1 at concrete inputs: with `azure_base_url` absent construction
fails with the configuration error, and `LLM.init sampleCfg` (all three fields
present) succeeds. -/
theorem azure_construction_validates_witness :
    (LLM.init cfgAzureMissing =
        Except.error (InitError.azureIncomplete azureIncompleteMsg) ∧
      containsSub azureIncompleteMsg.data "azure_base_url".data = true ∧
      containsSub azureIncompleteMsg.data "azure_deployment_name".data = true ∧
      containsSub azureIncompleteMsg.data "azure_api_key".data = true) ∧
    LLM.init sampleCfg = Except.ok sampleAzureState :=
  ⟨(azure_construction_validates cfgAzureMissing (Or.inl (by decide))).1 (by decide),
   (azure_construction_validates sampleCfg (Or.inl (by decide))).2 (by decide)⟩

/-- Concrete input refuting C2 as stated: the selector "OPENAI". -/
def cfgUpperOpenai : Config := { sampleCfg with llm_model_type := "OPENAI" }

/-- Claim C2 counterexample: the selector "OPENAI" is not one of the four
supported selector strings, yet construction succeeds (the constructor
lowercases the selector) instead of failing with the unsupported-backend
error. -/
theorem unsupported_selector_counterexample :
    "OPENAI" ∉ (["openai", "azure", "azure_openai", "ollama"] : List String) ∧
    LLM.init cfgUpperOpenai = Except.ok { config := cfgUpperOpenai, model := "openai" } :=
  ⟨by decide, rfl⟩

/-- Claim C2 (amended): for every selector whose lowercased form is not one of
openai, azure, azure_openai, ollama, construction fails with the
unsupported-backend error naming the selector. -/
theorem unsupported_selector_fails (cfg : Config)
    (h : strLower cfg.llm_model_type ∉
      (["openai", "azure", "azure_openai", "ollama"] : List String)) :
    LLM.init cfg =
      Except.error (InitError.unsupported
        ("不支持的模型类型: " ++ strLower cfg.llm_model_type)) := by
  simp only [List.mem_cons, List.not_mem_nil, or_false, not_or] at h
  obtain ⟨h1, h2, h3, h4⟩ := h
  simp [LLM.init, h1, h2, h3, h4]

/-- Concrete input for the C2 witness: the selector "foo". -/
def cfgFoo : Config := { sampleCfg with llm_model_type := "foo" }

/-- Witness for the amended C2 at a concrete input: selector "foo" makes
construction fail with the unsupported-backend error. -/
theorem unsupported_selector_fails_witness :
    LLM.init cfgFoo = Except.error (InitError.unsupported "不支持的模型类型: foo") :=
  unsupported_selector_fails cfgFoo (by decide)

/-- Claim C10: backend selection is case-insensitive — whenever the lowercased
selector is one of the four supported values, construction never fails with the
unsupported-backend error, and on success the selected backend is the
lowercased selector. -/
theorem case_insensitive_selection (cfg : Config)
    (h : strLower cfg.llm_model_type ∈
      (["openai", "azure", "azure_openai", "ollama"] : List String)) :
    (∀ msg, LLM.init cfg ≠ Except.error (InitError.unsupported msg)) ∧
    (∀ st, LLM.init cfg = Except.ok st → st.model = strLower cfg.llm_model_type) := by
  simp only [List.mem_cons, List.not_mem_nil, or_false] at h
  constructor
  · intro msg hc
    rcases h with h | h | h | h <;> rw [LLM.init] at hc <;> simp only [h] at hc <;>
      split at hc <;> (try simp_all) <;> split at hc <;> simp_all
  · intro st hok
    rcases h with h | h | h | h <;> rw [LLM.init] at hok <;> simp only [h] at hok <;>
      split at hok <;> (try split at hok) <;> (try split at hok) <;>
      (try simp_all) <;> subst hok <;> rfl

/-- Witness for C10 at a concrete input: the mixed-case selector "OpenAI"
does not produce the unsupported-backend error, and the constructed state's
backend is the lowercased selector. -/
theorem case_insensitive_selection_witness :
    LLM.init { sampleCfg with llm_model_type := "OpenAI" } ≠
      Except.error (InitError.unsupported "不支持的模型类型: openai") ∧
    ({ config := { sampleCfg with llm_model_type := "OpenAI" }, model := "openai" }
        : LLMState).model =
      strLower ({ sampleCfg with llm_model_type := "OpenAI" } : Config).llm_model_type :=
  ⟨(case_insensitive_selection { sampleCfg with llm_model_type := "OpenAI" }
      (by decide)).1 "不支持的模型类型: openai",
   (case_insensitive_selection { sampleCfg with llm_model_type := "OpenAI" }
      (by decide)).2 _ rfl⟩

/-- The two-message request sequence `generate_report` builds: role system with
the system prompt, then role user with the user content. -/
def mkMessages (system_prompt user_content : String) : List Message :=
  [ { role := "system", content := system_prompt },
    { role := "user", content := user_content } ]

/-- Claim C3: for every state, backend reply and pair of inputs, whenever
`generate_report` dispatches, the outgoing request carries exactly the
two-message sequence — role system with the system prompt first, then role user
with the user content verbatim. -/
theorem request_messages_roundtrip (st : LLMState) (sp uc : String)
    (resp : BackendResponse) (req : Request) (out : Except GenError (Option String))
    (h : LLM.generate_report st sp uc resp = Except.ok (req, out)) :
    req.messages = mkMessages sp uc := by
  rw [LLM.generate_report.eq_def] at h
  cases resp <;>
    split at h <;>
    (try split at h) <;>
    (try split at h) <;>
    first
    | (simp only [LLM.generate_report_openai, LLM.generate_report_azure,
        LLM.generate_report_ollama, Except.ok.injEq, Prod.mk.injEq] at h
       obtain ⟨h1, h2⟩ := h
       subst h1
       rfl)
    | simp at h

/-- Witness for C3 at concrete inputs: the openai adapter's outgoing request
carries the system and user messages in order. -/
theorem request_messages_roundtrip_witness :
    (Request.openai
        { model := "gpt-4o-mini", messages := mkMessages "sys" "report me" }).messages =
      mkMessages "sys" "report me" :=
  request_messages_roundtrip sampleOpenaiState "sys" "report me"
    (BackendResponse.openai { choices := [] })
    (Request.openai { model := "gpt-4o-mini", messages := mkMessages "sys" "report me" })
    (Except.error GenError.indexError) rfl

/-- The request the azure path issues from adapter state `st` and messages
`msgs` (llm.py, `_generate_report_azure`). -/
def azureRequestOf (st : LLMState) (msgs : List Message) : Request :=
  Request.azure
    { url := st.azure_base_url ++ "/openai/deployments/" ++ st.azure_deployment_name ++
        "/chat/completions?api-version=" ++ st.azure_api_version,
      content_type := "application/json",
      api_key := st.azure_api_key,
      payload := { messages := msgs, max_tokens := 4000, temperature := 7/10, top_p := 1 },
      timeout := 60 }

/-- Claim C4: on the azure backend, the JSON body sent has `max_tokens = 4000`,
`temperature = 0.7`, `top_p = 1`, and its messages list is exactly the two
input messages in order (system first, then user) — stated as the full outgoing
request `azureRequestOf`. -/
theorem azure_request_body (st : LLMState) (sp uc : String) (status : Nat)
    (body : AzureBody) (req : Request) (out : Except GenError (Option String))
    (hm : st.model = "azure" ∨ st.model = "azure_openai")
    (h : LLM.generate_report st sp uc (BackendResponse.azure status body) =
      Except.ok (req, out)) :
    req = azureRequestOf st (mkMessages sp uc) := by
  rw [LLM.generate_report] at h
  have hne : ¬ st.model = "openai" := by rcases hm with hm | hm <;> simp [hm]
  rw [if_neg hne, if_pos hm] at h
  simp only [LLM.generate_report_azure, Except.ok.injEq, Prod.mk.injEq] at h
  obtain ⟨h1, h2⟩ := h
  subst h1
  rfl

/-- Witness for C4 at concrete inputs: the azure adapter's outgoing request. -/
theorem azure_request_body_witness :
    azureRequestOf sampleAzureState (mkMessages "sys" "body") =
      azureRequestOf sampleAzureState (mkMessages "sys" "body") :=
  azure_request_body sampleAzureState "sys" "body" 200 { choices := none }
    (azureRequestOf sampleAzureState (mkMessages "sys" "body"))
    (Except.error GenError.missingChoices) (Or.inl rfl) rfl

/-- The request the ollama path issues (llm.py, `_generate_report_ollama`). -/
def ollamaRequestOf (st : LLMState) (msgs : List Message) : Request :=
  Request.ollama
    { url := st.api_url,
      payload := { model := st.config.ollama_model_name, messages := msgs,
                   max_tokens := 4000, temperature := 7/10, stream := false } }

/-- Claim C8: on the openai backend, a reply whose first (and only) choice has
message content "R1" makes `generate_report` return exactly "R1" — the first
choice's message text unchanged — alongside the one request issued. -/
theorem openai_extraction (st : LLMState) (sp uc : String) (hm : st.model = "openai") :
    LLM.generate_report st sp uc
        (BackendResponse.openai { choices := [{ message := { content := some "R1" } }] }) =
      Except.ok
        (Request.openai
          { model := st.config.openai_model_name, messages := mkMessages sp uc },
         Except.ok (some "R1")) := by
  rw [LLM.generate_report]
  rw [if_pos hm]
  rfl

/-- Witness for C8 at concrete inputs. -/
theorem openai_extraction_witness :
    LLM.generate_report sampleOpenaiState "sys" "body"
        (BackendResponse.openai { choices := [{ message := { content := some "R1" } }] }) =
      Except.ok
        (Request.openai
          { model := sampleOpenaiState.config.openai_model_name,
            messages := mkMessages "sys" "body" },
         Except.ok (some "R1")) :=
  openai_extraction sampleOpenaiState "sys" "body" rfl

/-- Claim C7: on the ollama backend, the reply body with message content "R2"
makes `generate_report` return exactly "R2", and the reply body whose message
object has no content makes it raise the response-shape error. -/
theorem ollama_extraction (st : LLMState) (sp uc : String) (hm : st.model = "ollama") :
    LLM.generate_report st sp uc
        (BackendResponse.ollama { message := some { content := some "R2" } }) =
      Except.ok (ollamaRequestOf st (mkMessages sp uc), Except.ok (some "R2")) ∧
    LLM.generate_report st sp uc
        (BackendResponse.ollama { message := some { content := none } }) =
      Except.ok (ollamaRequestOf st (mkMessages sp uc),
        Except.error GenError.ollamaInvalid) := by
  have hne : ¬ st.model = "openai" := by simp [hm]
  have hne2 : ¬ (st.model = "azure" ∨ st.model = "azure_openai") := by simp [hm]
  constructor <;> rw [LLM.generate_report] <;>
    rw [if_neg hne, if_neg hne2, if_pos hm] <;> rfl

/-- Witness for C7 at concrete inputs. -/
theorem ollama_extraction_witness :
    LLM.generate_report sampleOllamaState "sys" "body"
        (BackendResponse.ollama { message := some { content := some "R2" } }) =
      Except.ok (ollamaRequestOf sampleOllamaState (mkMessages "sys" "body"),
        Except.ok (some "R2")) ∧
    LLM.generate_report sampleOllamaState "sys" "body"
        (BackendResponse.ollama { message := some { content := none } }) =
      Except.ok (ollamaRequestOf sampleOllamaState (mkMessages "sys" "body"),
        Except.error GenError.ollamaInvalid) :=
  ollama_extraction sampleOllamaState "sys" "body" rfl

/-- A non-truthy check that succeeded: if `falsy o` is not true, `o` holds a
non-empty string. -/
theorem of_falsy_ne_true (o : Option String) (h : ¬ falsy o = true) :
    ∃ s, o = some s ∧ s ≠ "" := by
  cases o with
  | none => exact absurd rfl h
  | some s =>
    refine ⟨s, rfl, ?_⟩
    intro hs
    subst hs
    exact h rfl

/-- Claim C5 counterexample: on the openai backend a reply whose first choice
has empty content is returned as-is — `generate_report` succeeds with the empty
string instead of raising an error (only the azure and ollama paths check the
extracted content for emptiness). -/
theorem nonempty_report_counterexample :
    LLM.init sampleOpenaiCfg = Except.ok sampleOpenaiState ∧
    LLM.generate_report sampleOpenaiState "s" "u"
        (BackendResponse.openai { choices := [{ message := { content := some "" } }] }) =
      Except.ok
        (Request.openai { model := "gpt-4o-mini", messages := mkMessages "s" "u" },
         Except.ok (some "")) :=
  ⟨rfl, rfl⟩

/-- Claim C5 (amended): on the azure and ollama backends, whenever
`generate_report` returns successfully the returned value is non-empty text;
the openai path returns the message content of the first choice without this
check. -/
theorem nonempty_report_azure_ollama (st : LLMState) (sp uc : String)
    (resp : BackendResponse) (req : Request) (c : Option String)
    (hm : st.model = "azure" ∨ st.model = "azure_openai" ∨ st.model = "ollama")
    (h : LLM.generate_report st sp uc resp = Except.ok (req, Except.ok c)) :
    ∃ s, c = some s ∧ s ≠ "" := by
  rw [LLM.generate_report.eq_def] at h
  have hne : ¬ st.model = "openai" := by
    rcases hm with hm | hm | hm <;> simp [hm]
  cases resp with
  | openai r =>
    split at h
    · exact absurd (by assumption) hne
    · split at h
      · simp at h
      · split at h <;> simp at h
  | azure status body =>
    split at h
    · exact absurd (by assumption) hne
    · split at h
      · simp only [LLM.generate_report_azure, Except.ok.injEq, Prod.mk.injEq] at h
        obtain ⟨h1, h2⟩ := h
        split at h2
        · simp at h2
        · split at h2
          · simp at h2
          · split at h2
            · simp at h2
            · simp only [Except.ok.injEq] at h2
              subst h2
              exact of_falsy_ne_true _ (by assumption)
      · split at h <;> simp at h
  | ollama body =>
    split at h
    · exact absurd (by assumption) hne
    · split at h
      · simp at h
      · split at h
        · simp only [LLM.generate_report_ollama, Except.ok.injEq, Prod.mk.injEq] at h
          obtain ⟨h1, h2⟩ := h
          split at h2
          · simp at h2
          · simp only [Except.ok.injEq] at h2
            subst h2
            exact of_falsy_ne_true _ (by assumption)
        · simp at h

/-- Witness for the amended C5 at concrete inputs: an azure reply with content
"R" yields a non-empty report. -/
theorem nonempty_report_azure_ollama_witness :
    ∃ s, (some "R" : Option String) = some s ∧ s ≠ "" :=
  nonempty_report_azure_ollama sampleAzureState "sys" "body"
    (BackendResponse.azure 200
      { choices := some [{ message := some { content := some "R" } }] })
    (azureRequestOf sampleAzureState (mkMessages "sys" "body"))
    (some "R") (Or.inl rfl) rfl

/-- Claim C6: on the azure backend with a 2xx reply, `generate_report` raises
the missing-choices error when the choices list is empty or absent, and the
extraction error when the first choice has no (truthy) message content — in
both cases it does not return. -/
theorem azure_shape_errors (st : LLMState) (sp uc : String) (status : Nat)
    (body : AzureBody) (req : Request) (out : Except GenError (Option String))
    (hm : st.model = "azure" ∨ st.model = "azure_openai")
    (hst : 200 ≤ status ∧ status < 300)
    (h : LLM.generate_report st sp uc (BackendResponse.azure status body) =
      Except.ok (req, out)) :
    (body.choices.getD [] = [] → out = Except.error GenError.missingChoices) ∧
    (∀ ch rest, body.choices.getD [] = ch :: rest →
      falsy (ch.message.getD { content := none }).content = true →
      out = Except.error GenError.cannotExtract) := by
  rw [LLM.generate_report] at h
  have hne : ¬ st.model = "openai" := by rcases hm with hm | hm <;> simp [hm]
  rw [if_neg hne, if_pos hm] at h
  simp only [LLM.generate_report_azure, Except.ok.injEq, Prod.mk.injEq] at h
  obtain ⟨h1, h2⟩ := h
  have hs4 : ¬ (400 ≤ status ∧ status < 600) := by omega
  rw [if_neg hs4] at h2
  constructor
  · intro hnil
    rw [hnil] at h2
    exact h2.symm
  · intro ch rest hcons hfalsy
    rw [hcons] at h2
    simp only [hfalsy] at h2
    simp at h2
    exact h2.symm

/-- Witness for C6 at concrete inputs: a 200 reply with absent choices makes
the azure adapter raise the missing-choices error. -/
theorem azure_shape_errors_witness :
    (Except.error GenError.missingChoices : Except GenError (Option String)) =
      Except.error GenError.missingChoices :=
  (azure_shape_errors sampleAzureState "sys" "body" 200 { choices := none }
    (azureRequestOf sampleAzureState (mkMessages "sys" "body"))
    (Except.error GenError.missingChoices) (Or.inl rfl) (by omega) rfl).1 rfl

/-- Configuration whose azure base URL ends in a slash. -/
def cfgSlash : Config := { sampleCfg with azure_base_url := some "https://e.com/" }

/-- The adapter state `LLM.init cfgSlash` produces: the stored base URL has the
trailing slash stripped. -/
def stateSlash : LLMState :=
  { config := cfgSlash, model := "azure", azure_base_url := "https://e.com",
    azure_deployment_name := "dep", azure_api_key := "key",
    azure_api_version := "2023-05-15" }

/-- Claim C9 counterexample: with configured base URL "https://e.com/" (trailing
slash) the URL actually issued strips the slash, so it is not the claimed
template instantiated with the base URL as configured. -/
theorem azure_url_counterexample :
    LLM.init cfgSlash = Except.ok stateSlash ∧
    LLM.generate_report stateSlash "s" "u" (BackendResponse.azure 200 { choices := none }) =
      Except.ok (azureRequestOf stateSlash (mkMessages "s" "u"),
        Except.error GenError.missingChoices) ∧
    azureRequestOf stateSlash (mkMessages "s" "u") =
      Request.azure
        { url := "https://e.com/openai/deployments/dep/chat/completions?api-version=2023-05-15",
          content_type := "application/json", api_key := "key",
          payload := { messages := mkMessages "s" "u", max_tokens := 4000,
                       temperature := 7/10, top_p := 1 },
          timeout := 60 } ∧
    "https://e.com/openai/deployments/dep/chat/completions?api-version=2023-05-15" ≠
      "https://e.com/" ++ "/openai/deployments/dep/chat/completions?api-version=2023-05-15" :=
  ⟨rfl, rfl, rfl, by decide⟩

/-- Claim C9 (amended): on an adapter constructed with the azure backend, every
`generate_report` call issues exactly one HTTP POST (the model emits one
request per call), whose URL is built from the configured base URL with
trailing slashes stripped, the configured deployment name and API version, and
whose api-key header is the configured key. -/
theorem azure_url_from_config (cfg : Config) (st : LLMState) (sp uc : String)
    (resp : BackendResponse) (req : Request) (out : Except GenError (Option String))
    (hsel : strLower cfg.llm_model_type = "azure" ∨
      strLower cfg.llm_model_type = "azure_openai")
    (hinit : LLM.init cfg = Except.ok st)
    (h : LLM.generate_report st sp uc resp = Except.ok (req, out)) :
    req = Request.azure
      { url := rstripSlash (cfg.azure_base_url.getD "") ++ "/openai/deployments/" ++
          cfg.azure_deployment_name.getD "" ++ "/chat/completions?api-version=" ++
          cfg.azure_api_version,
        content_type := "application/json",
        api_key := cfg.azure_api_key.getD "",
        payload := { messages := mkMessages sp uc, max_tokens := 4000,
                     temperature := 7/10, top_p := 1 },
        timeout := 60 } := by
  rw [LLM.init] at hinit
  have hne0 : ¬ strLower cfg.llm_model_type = "openai" := by
    rcases hsel with hs | hs <;> simp [hs]
  rw [if_neg hne0, if_pos hsel] at hinit
  split at hinit
  · simp at hinit
  · simp only [Except.ok.injEq] at hinit
    subst hinit
    rw [LLM.generate_report.eq_def] at h
    cases resp <;>
      split at h <;>
      (try split at h) <;>
      first
      | exact absurd (by assumption) hne0
      | exact absurd hsel (by assumption)
      | (simp only [LLM.generate_report_azure, Except.ok.injEq, Prod.mk.injEq] at h
         exact h.1.symm)
      | simp at h

/-- Witness for the amended C9 at concrete inputs. -/
theorem azure_url_from_config_witness :
    azureRequestOf stateSlash (mkMessages "s" "u") =
      Request.azure
        { url := rstripSlash (cfgSlash.azure_base_url.getD "") ++ "/openai/deployments/" ++
            cfgSlash.azure_deployment_name.getD "" ++ "/chat/completions?api-version=" ++
            cfgSlash.azure_api_version,
          content_type := "application/json",
          api_key := cfgSlash.azure_api_key.getD "",
          payload := { messages := mkMessages "s" "u", max_tokens := 4000,
                       temperature := 7/10, top_p := 1 },
          timeout := 60 } :=
  azure_url_from_config cfgSlash stateSlash "s" "u"
    (BackendResponse.azure 200 { choices := none })
    (azureRequestOf stateSlash (mkMessages "s" "u"))
    (Except.error GenError.missingChoices) (Or.inl rfl) rfl rfl

end GitHubSentinel
